import Mathlib

/-!
Shallow embedding of the study-map client screens.

From `app/(tabs)/index.tsx`: the marker glow computation `getGlowStyle`, the
study-space list reordering `bringSpaceToTop`, and the rendering of study-space
records as map markers.

From the follow screen: `handleFollowToggle`, its optimistic update of the
`following` state, the backend call it issues, and the rollback performed in
its `catch` branch.

JS conventions used throughout: `undefined`/`null` become `Option.none`;
numbers that the code only compares and arithmetics over become `ℚ` (opacities,
coordinates) or `ℤ` (millisecond timestamps); a JS value that may be a
non-number (the defensive `typeof` check in `getGlowStyle`) is an `Option ℚ`
with `none` for the non-number or NaN case.
-/

set_option autoImplicit false

namespace StudyMap

/-- A live-location ping: coordinates and a millisecond timestamp
(the `location` object inside a `UserLocation`). -/
structure LocationData where
  latitude : ℚ
  longitude : ℚ
  timestamp : ℤ
deriving DecidableEq, Repr

/-- A followed user's marker input: the `UserLocation` record together with the
session fields `getGlowStyle` reads (`sessionActive`, `sessionType`).
`sessionType` is `none` for JS `null`/`undefined`; `location` is `none` when
the user has no location ping. -/
structure UserLocation where
  userId : String
  name : String
  sessionActive : Bool
  sessionType : Option String
  location : Option LocationData
  pfp : Option String
deriving DecidableEq, Repr

/-- The authenticated user from `useAuth` (`user` may be `null`, modelled as
`Option CurrentUser` at use sites). -/
structure CurrentUser where
  uid : String
  name : String
deriving DecidableEq, Repr

/-- An `rgba(r, g, b, a)` color literal as produced by the template strings in
`getGlowStyle`. -/
structure RGBA where
  r : ℕ
  g : ℕ
  b : ℕ
  a : ℚ
deriving DecidableEq, Repr

/-- Which static stylesheet entry a `getGlowStyle` branch starts from
(`styles.glowSelf`, `styles.glowInactive`, ...). -/
inductive GlowBase
  | glowSelf
  | glowInactive
  | glowNoSession
  | glowCollaborative
  | glowQuiet
  | glowIndividual
deriving DecidableEq, Repr

/-- The value returned by `getGlowStyle`: the static base style plus the
override object `{ shadowOpacity, borderColor, shadowColor }`. -/
structure GlowStyle where
  base : GlowBase
  shadowOpacity : ℚ
  borderColor : RGBA
  shadowColor : RGBA
deriving DecidableEq, Repr

/-- JS truthiness of the `sessionType` field, as tested by
`!userLocation.sessionType || userLocation.sessionType === null`:
`undefined` and `null` (both `none`) and the empty string are falsy. -/
def sessionTypeFalsy : Option String → Bool
  | none => true
  | some s => s == ""

/-- `userLocation.userId === currentUser?.uid`: false when there is no current
user, since a string is never strictly equal to `undefined`. -/
def isCurrentUser (userLocation : UserLocation) (currentUser : Option CurrentUser) : Bool :=
  match currentUser with
  | some c => userLocation.userId == c.uid
  | none => false

/-- The defensive opacity normalisation at the top of `getGlowStyle`: a number
is clamped to `[0.15, 0.7]` via `Math.max(0.15, Math.min(0.7, glowOpacity))`;
a non-number or NaN (modelled as `none`) is replaced by `0.5`. -/
def clampOpacity : Option ℚ → ℚ
  | some q => max (15 / 100) (min (7 / 10) q)
  | none => 1 / 2

/-- `!userLocation.location || (Date.now() - userLocation.location.timestamp > 30 * 60 * 1000)`. -/
def isInactiveLoc (location : Option LocationData) (now : ℤ) : Bool :=
  match location with
  | none => true
  | some l => decide (now - l.timestamp > 30 * 60 * 1000)

/-- `getGlowStyle(userLocation, currentUser, selectedUserId, glowOpacity)`
from `index.tsx`, with the implicit `Date.now()` passed explicitly as `now`.
`selectedUserId` is accepted but never read, exactly as in the source. -/
def getGlowStyle (userLocation : UserLocation) (currentUser : Option CurrentUser)
    (selectedUserId : Option String) (glowOpacity : Option ℚ) (now : ℤ) : GlowStyle :=
  let op := clampOpacity glowOpacity
  if isCurrentUser userLocation currentUser then
    ⟨.glowSelf, op, ⟨100, 180, 255, op⟩, ⟨100, 180, 255, op⟩⟩
  else if !userLocation.sessionActive && sessionTypeFalsy userLocation.sessionType then
    if isInactiveLoc userLocation.location now then
      ⟨.glowInactive, op, ⟨176, 176, 176, op⟩, ⟨176, 176, 176, op⟩⟩
    else
      ⟨.glowNoSession, op, ⟨220, 139, 71, op⟩, ⟨220, 139, 71, op⟩⟩
  else if userLocation.sessionActive then
    match userLocation.sessionType with
    | some "collaborative" => ⟨.glowCollaborative, op, ⟨75, 228, 123, op⟩, ⟨75, 228, 123, op⟩⟩
    | some "quiet" => ⟨.glowQuiet, op, ⟨255, 224, 102, op⟩, ⟨255, 224, 102, op⟩⟩
    | some "individual" => ⟨.glowIndividual, op, ⟨255, 75, 75, op⟩, ⟨255, 75, 75, op⟩⟩
    | _ => ⟨.glowCollaborative, op, ⟨75, 228, 123, op⟩, ⟨75, 228, 123, op⟩⟩
  else
    ⟨.glowNoSession, op, ⟨220, 139, 71, op⟩, ⟨220, 139, 71, op⟩⟩

/-- The backend call `toggleFollowUser(user.uid, targetUserId, !isCurrentlyFollowing)`
issued by `handleFollowToggle`. -/
structure ToggleCall where
  uid : String
  targetUserId : String
  newState : Bool
deriving DecidableEq, Repr

/-- The synchronous effect of `handleFollowToggle` before the backend call
resolves: the optimistic `setFollowing` update applied to the current
`following` list, paired with the backend call it issues. -/
def handleFollowToggle (uid : String) (following : List String) (targetUserId : String) :
    List String × ToggleCall :=
  let isCurrentlyFollowing := following.contains targetUserId
  let updated :=
    if isCurrentlyFollowing then following.filter (fun id => id != targetUserId)
    else following ++ [targetUserId]
  (updated, ⟨uid, targetUserId, !isCurrentlyFollowing⟩)

/-- The `following` state after the `catch` branch runs: the rollback
`setFollowing` applied to the state left by the optimistic update, where
`following` inside the rollback closure is the value captured at press time
(the prior list). -/
def handleFollowToggleOnError (uid : String) (following : List String) (targetUserId : String) :
    List String :=
  let updated := (handleFollowToggle uid following targetUserId).1
  if !(following.contains targetUserId) then updated.filter (fun id => id != targetUserId)
  else updated ++ [targetUserId]

/-- The `aesthetics` block of a study space's feature ratings. -/
structure AestheticsRatings where
  corporate : ℚ
  cozy : ℚ
  dark_academia : ℚ
  minimalist : ℚ
deriving DecidableEq, Repr

/-- The `lighting` block of a study space's feature ratings. -/
structure LightingRatings where
  artificial : ℚ
  bright : ℚ
  dim : ℚ
  natural : ℚ
deriving DecidableEq, Repr

/-- The `reservable` block of a study space's feature ratings. -/
structure ReservableRatings where
  no : ℚ
  yes : ℚ
deriving DecidableEq, Repr

/-- The `seating` block of a study space's feature ratings. -/
structure SeatingRatings where
  couches : ℚ
  desks : ℚ
  comfy : ℚ
  hard : ℚ
deriving DecidableEq, Repr

/-- The `FeatureRatings` record type from `index.tsx`. -/
structure FeatureRatings where
  aesthetics : AestheticsRatings
  lighting : LightingRatings
  reservable : ReservableRatings
  seating : SeatingRatings
  noise : ℚ
  outlets : ℚ
  temp : ℚ
  wifi : ℚ
  cleanliness : ℚ
deriving DecidableEq, Repr

/-- The `StudySpace` record type from `index.tsx`; `location` is the
`[latitude, longitude]` pair. -/
structure StudySpace where
  id : String
  name : String
  address : String
  createdBy : String
  features : FeatureRatings
  hours : String
  location : ℚ × ℚ
  numRatings : ℕ
  spaceId : String
  images : Option (List String)
deriving DecidableEq, Repr

/-- `Array.prototype.findIndex`, with `none` for the JS result `-1`. -/
def jsFindIndex {α : Type} (p : α → Bool) : List α → Option ℕ
  | [] => none
  | x :: xs => if p x then some 0 else (jsFindIndex p xs).map (· + 1)

/-- `bringSpaceToTop`: find the first space whose `id` equals `spaceId`;
if none, return the list unchanged; otherwise move that space to the front,
the rest keeping their order (`prevSpaces.filter((_, i) => i !== index)`,
which removes exactly the element at the found index, is `eraseIdx`). -/
def bringSpaceToTop (prevSpaces : List StudySpace) (spaceId : String) : List StudySpace :=
  match jsFindIndex (fun space => space.id == spaceId) prevSpaces with
  | none => prevSpaces
  | some index =>
    match prevSpaces[index]? with
    | none => prevSpaces
    | some selected => selected :: prevSpaces.eraseIdx index

/-- The marker attributes produced for one study space in the map render:
`coordinate`, `title` and `description`. -/
structure SpaceMarker where
  latitude : ℚ
  longitude : ℚ
  title : String
  description : String
deriving DecidableEq, Repr

/-- One study-space record rendered as a map marker, as in
`coordinate={{ latitude: space.location[0], longitude: space.location[1] }}`
with `title={space.name}` and `description={space.address}`. -/
def renderSpaceMarker (space : StudySpace) : SpaceMarker :=
  { latitude := space.location.1
    longitude := space.location.2
    title := space.name
    description := space.address }

/-- `studySpaces.map((space) => <Marker .../>)`: the displayed marker list. -/
def spaceMarkers (studySpaces : List StudySpace) : List SpaceMarker :=
  studySpaces.map renderSpaceMarker

/-- A concrete feature-ratings record used by closed witness statements. -/
def sampleFeatures : FeatureRatings :=
  { aesthetics := ⟨1, 2, 3, 4⟩
    lighting := ⟨1, 2, 3, 4⟩
    reservable := ⟨0, 1⟩
    seating := ⟨1, 2, 3, 4⟩
    noise := 3
    outlets := 4
    temp := 3
    wifi := 5
    cleanliness := 4 }

/-- A concrete study space used by closed witness statements. -/
def sampleSpace : StudySpace :=
  { id := "s1"
    name := "PCL"
    address := "101 E 21st St"
    createdBy := "me"
    features := sampleFeatures
    hours := "24/7"
    location := (3028 / 100, -9774 / 100)
    numRatings := 12
    spaceId := "s1"
    images := none }

/-! ### Helper lemmas (shared) -/

lemma clampOpacity_bounds (gl : Option ℚ) :
    15 / 100 ≤ clampOpacity gl ∧ clampOpacity gl ≤ 7 / 10 := by
  cases gl with
  | none => norm_num [clampOpacity]
  | some q => exact ⟨le_max_left _ _, max_le (by norm_num) (min_le_left _ _)⟩

lemma isInactiveLoc_true_iff (loc : Option LocationData) (now : ℤ) :
    isInactiveLoc loc now = true ↔
      loc = none ∨ ∃ l, loc = some l ∧ 30 * 60 * 1000 < now - l.timestamp := by
  cases loc with
  | none => simp [isInactiveLoc]
  | some l => simp [isInactiveLoc]

lemma isCurrentUser_false_of_ne (u : UserLocation) (cu : CurrentUser)
    (h : u.userId ≠ cu.uid) : isCurrentUser u (some cu) = false := by
  simp [isCurrentUser, h]

/-! ### C10: the self branch takes precedence -/

/-- C10: whenever the marker input's `userId` equals the current user's `uid`,
`getGlowStyle` returns the blue self glow style, regardless of `sessionActive`,
`sessionType` and the location timestamp: the self branch takes precedence over
every other branch. -/
theorem getGlowStyle_self_precedence
    (u : UserLocation) (cu : CurrentUser) (sel : Option String)
    (gl : Option ℚ) (now : ℤ) (h : u.userId = cu.uid) :
    getGlowStyle u (some cu) sel gl now =
      ⟨.glowSelf, clampOpacity gl,
        ⟨100, 180, 255, clampOpacity gl⟩, ⟨100, 180, 255, clampOpacity gl⟩⟩ := by
  simp [getGlowStyle, isCurrentUser, h]

/-- Witness for C10: a user in an active individual session whose id equals the
current uid still gets the blue self style, not the red one. -/
theorem getGlowStyle_self_precedence_witness :
    ("me" : String) = "me" ∧
      getGlowStyle ⟨"me", "Me", true, some "individual", none, none⟩
          (some ⟨"me", "Me"⟩) none none 0 =
        ⟨.glowSelf, 1 / 2, ⟨100, 180, 255, 1 / 2⟩, ⟨100, 180, 255, 1 / 2⟩⟩ :=
  ⟨rfl, getGlowStyle_self_precedence
    ⟨"me", "Me", true, some "individual", none, none⟩ ⟨"me", "Me"⟩ none none 0 rfl⟩

/-! ### C1: active sessions of followed users -/

/-- C1: for a followed user's marker (`userId` differs from the current uid)
with `sessionActive` true, `getGlowStyle` returns the session-type glow:
collaborative gives the green style, quiet the yellow style, individual the
red style. -/
theorem getGlowStyle_active_session_colors
    (u : UserLocation) (cu : CurrentUser) (sel : Option String)
    (gl : Option ℚ) (now : ℤ)
    (hne : u.userId ≠ cu.uid) (hact : u.sessionActive = true) :
    (u.sessionType = some "collaborative" →
      getGlowStyle u (some cu) sel gl now =
        ⟨.glowCollaborative, clampOpacity gl,
          ⟨75, 228, 123, clampOpacity gl⟩, ⟨75, 228, 123, clampOpacity gl⟩⟩) ∧
    (u.sessionType = some "quiet" →
      getGlowStyle u (some cu) sel gl now =
        ⟨.glowQuiet, clampOpacity gl,
          ⟨255, 224, 102, clampOpacity gl⟩, ⟨255, 224, 102, clampOpacity gl⟩⟩) ∧
    (u.sessionType = some "individual" →
      getGlowStyle u (some cu) sel gl now =
        ⟨.glowIndividual, clampOpacity gl,
          ⟨255, 75, 75, clampOpacity gl⟩, ⟨255, 75, 75, clampOpacity gl⟩⟩) := by
  refine ⟨fun hty => ?_, fun hty => ?_, fun hty => ?_⟩ <;>
    simp [getGlowStyle, isCurrentUser, hne, hact, hty, sessionTypeFalsy]

/-- Witness for C1: a followed user in an active collaborative session gets the
green glow style. -/
theorem getGlowStyle_active_session_colors_witness :
    ("friend" : String) ≠ "me" ∧
      getGlowStyle ⟨"friend", "Friend", true, some "collaborative", none, none⟩
          (some ⟨"me", "Me"⟩) none none 0 =
        ⟨.glowCollaborative, 1 / 2, ⟨75, 228, 123, 1 / 2⟩, ⟨75, 228, 123, 1 / 2⟩⟩ :=
  ⟨by decide,
    (getGlowStyle_active_session_colors
      ⟨"friend", "Friend", true, some "collaborative", none, none⟩
      ⟨"me", "Me"⟩ none none 0 (by decide) rfl).1 rfl⟩

/-! ### C2: no-session friends, recency of the last ping -/

/-- C2: for a marker of a user other than the current one, with
`sessionActive` false and a falsy `sessionType`, `getGlowStyle` returns the
gray inactive style iff the location is missing or its timestamp is more than
30 minutes (in ms) before now, and otherwise returns the orange no-session
style. -/
theorem getGlowStyle_no_session_recency
    (u : UserLocation) (cu : CurrentUser) (sel : Option String)
    (gl : Option ℚ) (now : ℤ)
    (hne : u.userId ≠ cu.uid) (hact : u.sessionActive = false)
    (hty : sessionTypeFalsy u.sessionType = true) :
    ((getGlowStyle u (some cu) sel gl now).base = .glowInactive ↔
      u.location = none ∨ ∃ l, u.location = some l ∧ 30 * 60 * 1000 < now - l.timestamp) ∧
    ((u.location = none ∨ ∃ l, u.location = some l ∧ 30 * 60 * 1000 < now - l.timestamp) →
      getGlowStyle u (some cu) sel gl now =
        ⟨.glowInactive, clampOpacity gl,
          ⟨176, 176, 176, clampOpacity gl⟩, ⟨176, 176, 176, clampOpacity gl⟩⟩) ∧
    (¬(u.location = none ∨ ∃ l, u.location = some l ∧ 30 * 60 * 1000 < now - l.timestamp) →
      getGlowStyle u (some cu) sel gl now =
        ⟨.glowNoSession, clampOpacity gl,
          ⟨220, 139, 71, clampOpacity gl⟩, ⟨220, 139, 71, clampOpacity gl⟩⟩) := by
  by_cases hstale : u.location = none ∨ ∃ l, u.location = some l ∧
      30 * 60 * 1000 < now - l.timestamp
  · have hin : isInactiveLoc u.location now = true :=
      (isInactiveLoc_true_iff u.location now).mpr hstale
    have hfull : getGlowStyle u (some cu) sel gl now =
        ⟨.glowInactive, clampOpacity gl,
          ⟨176, 176, 176, clampOpacity gl⟩, ⟨176, 176, 176, clampOpacity gl⟩⟩ := by
      simp [getGlowStyle, isCurrentUser, hne, hact, hty, hin]
    exact ⟨by rw [hfull]; exact iff_of_true rfl hstale, fun _ => hfull,
      fun hc => absurd hstale hc⟩
  · have hin : isInactiveLoc u.location now = false := by
      cases hcase : isInactiveLoc u.location now
      · rfl
      · exact absurd ((isInactiveLoc_true_iff u.location now).mp hcase) hstale
    have hfull : getGlowStyle u (some cu) sel gl now =
        ⟨.glowNoSession, clampOpacity gl,
          ⟨220, 139, 71, clampOpacity gl⟩, ⟨220, 139, 71, clampOpacity gl⟩⟩ := by
      simp [getGlowStyle, isCurrentUser, hne, hact, hty, hin]
    exact ⟨by rw [hfull]; exact iff_of_false (by simp) hstale,
      fun hc => absurd hc hstale, fun _ => hfull⟩

/-- Witness for C2: a followed user with no session and no location ping gets
the gray inactive style. -/
theorem getGlowStyle_no_session_recency_witness :
    ("friend" : String) ≠ "me" ∧
      getGlowStyle ⟨"friend", "Friend", false, none, none, none⟩
          (some ⟨"me", "Me"⟩) none none 0 =
        ⟨.glowInactive, 1 / 2, ⟨176, 176, 176, 1 / 2⟩, ⟨176, 176, 176, 1 / 2⟩⟩ :=
  ⟨by decide,
    (getGlowStyle_no_session_recency
      ⟨"friend", "Friend", false, none, none, none⟩
      ⟨"me", "Me"⟩ none none 0 (by decide) rfl rfl).2.1 (Or.inl rfl)⟩

/-! ### C7: the glow style depends only on four fields, the opacity and the time -/

lemma isInactiveLoc_congr (l1 l2 : Option LocationData) (now : ℤ)
    (h : l1.map LocationData.timestamp = l2.map LocationData.timestamp) :
    isInactiveLoc l1 now = isInactiveLoc l2 now := by
  cases l1 with
  | none =>
    cases l2 with
    | none => rfl
    | some b => exact Option.noConfusion h
  | some a =>
    cases l2 with
    | none => exact Option.noConfusion h
    | some b =>
      have h2 : a.timestamp = b.timestamp := by simpa using h
      simp [isInactiveLoc, h2]

/-- C7: `getGlowStyle` is a function of whether the marker belongs to the
current user, `sessionActive`, `sessionType`, and the presence/timestamp of
the location, together with the opacity and the current time: two inputs
agreeing on those yield equal styles, whatever their names, coordinates,
profile pictures or selected-user arguments. -/
theorem getGlowStyle_depends_only_on_fields
    (u1 u2 : UserLocation) (cu1 cu2 : Option CurrentUser)
    (sel1 sel2 : Option String) (gl : Option ℚ) (now : ℤ)
    (hself : isCurrentUser u1 cu1 = isCurrentUser u2 cu2)
    (hact : u1.sessionActive = u2.sessionActive)
    (hty : u1.sessionType = u2.sessionType)
    (hloc : u1.location.map LocationData.timestamp = u2.location.map LocationData.timestamp) :
    getGlowStyle u1 cu1 sel1 gl now = getGlowStyle u2 cu2 sel2 gl now := by
  have hin := isInactiveLoc_congr u1.location u2.location now hloc
  unfold getGlowStyle
  rw [hself, hact, hty, hin]

/-- Witness for C7: two markers for different users, with different names,
profile pictures, current users and selections, but agreeing on the four
fields, get the same style. -/
theorem getGlowStyle_depends_only_on_fields_witness :
    isCurrentUser ⟨"a", "A", true, some "quiet", none, none⟩ (some ⟨"me", "Me"⟩) =
        isCurrentUser ⟨"b", "B", true, some "quiet", none, some "pic"⟩ (some ⟨"you", "You"⟩) ∧
      (true : Bool) = true ∧ (some "quiet" : Option String) = some "quiet" ∧
      (Option.map LocationData.timestamp none : Option ℤ) = Option.map LocationData.timestamp none ∧
      getGlowStyle ⟨"a", "A", true, some "quiet", none, none⟩
          (some ⟨"me", "Me"⟩) none none 0 =
        getGlowStyle ⟨"b", "B", true, some "quiet", none, some "pic"⟩
          (some ⟨"you", "You"⟩) (some "b") none 0 :=
  ⟨by decide, rfl, rfl, rfl,
    getGlowStyle_depends_only_on_fields
      ⟨"a", "A", true, some "quiet", none, none⟩
      ⟨"b", "B", true, some "quiet", none, some "pic"⟩
      (some ⟨"me", "Me"⟩) (some ⟨"you", "You"⟩) none (some "b") none 0
      (by decide) rfl rfl rfl⟩

/-! ### C8: opacity bounds -/

lemma getGlowStyle_opacity_fields (u : UserLocation) (cu : Option CurrentUser)
    (sel : Option String) (gl : Option ℚ) (now : ℤ) :
    (getGlowStyle u cu sel gl now).shadowOpacity = clampOpacity gl ∧
    (getGlowStyle u cu sel gl now).borderColor.a = clampOpacity gl ∧
    (getGlowStyle u cu sel gl now).shadowColor.a = clampOpacity gl := by
  refine ⟨?_, ?_, ?_⟩ <;> (unfold getGlowStyle; (repeat' split) <;> rfl)

/-- C8: the effective opacity always lies in `[0.15, 0.7]`; a numeric opacity
is clamped to that interval and a non-numeric/NaN one is replaced by `0.5`, and
every returned style carries that value as its `shadowOpacity` and as the alpha
of both its colors. -/
theorem getGlowStyle_opacity_bounds
    (u : UserLocation) (cu : Option CurrentUser) (sel : Option String) (now : ℤ) :
    (∀ gl : Option ℚ,
      (15 / 100 ≤ (getGlowStyle u cu sel gl now).shadowOpacity ∧
        (getGlowStyle u cu sel gl now).shadowOpacity ≤ 7 / 10) ∧
      (getGlowStyle u cu sel gl now).borderColor.a =
        (getGlowStyle u cu sel gl now).shadowOpacity ∧
      (getGlowStyle u cu sel gl now).shadowColor.a =
        (getGlowStyle u cu sel gl now).shadowOpacity) ∧
    (∀ q : ℚ, (getGlowStyle u cu sel (some q) now).shadowOpacity =
      max (15 / 100) (min (7 / 10) q)) ∧
    (getGlowStyle u cu sel none now).shadowOpacity = 1 / 2 := by
  refine ⟨fun gl => ?_, fun q => ?_, ?_⟩
  · obtain ⟨h1, h2, h3⟩ := getGlowStyle_opacity_fields u cu sel gl now
    rw [h1, h2, h3]
    exact ⟨clampOpacity_bounds gl, rfl, rfl⟩
  · rw [(getGlowStyle_opacity_fields u cu sel (some q) now).1]; rfl
  · rw [(getGlowStyle_opacity_fields u cu sel none now).1]; rfl

/-! ### Follow screen: optimistic update and rollback -/

lemma handleFollowToggle_fst (uid : String) (following : List String) (t : String) :
    (handleFollowToggle uid following t).1 =
      if t ∈ following then following.filter (fun id => id != t)
      else following ++ [t] := by
  show (if following.contains t then following.filter (fun id => id != t)
      else following ++ [t]) =
    if t ∈ following then following.filter (fun id => id != t) else following ++ [t]
  by_cases h : t ∈ following
  · rw [if_pos (List.elem_iff.mpr h), if_pos h]
  · rw [if_neg (fun hb => h (List.elem_iff.mp hb)), if_neg h]

lemma contains_eq_false_of_not_mem (l : List String) (t : String) (h : t ∉ l) :
    l.contains t = false := by
  cases hb : l.contains t
  · rfl
  · exact absurd (List.elem_iff.mp hb) h

lemma handleFollowToggleOnError_eq (uid : String) (following : List String) (t : String) :
    handleFollowToggleOnError uid following t =
      if t ∈ following then following.filter (fun id => id != t) ++ [t]
      else following := by
  have hbody : handleFollowToggleOnError uid following t =
      if following.contains t then
        (following.filter (fun id => id != t)) ++ [t]
      else (following ++ [t]).filter (fun id => id != t) := by
    unfold handleFollowToggleOnError handleFollowToggle
    cases hc : following.contains t <;> simp [hc]
  rw [hbody]
  by_cases h : t ∈ following
  · rw [if_pos (List.elem_iff.mpr h), if_pos h]
  · rw [if_neg (fun hb => h (List.elem_iff.mp hb)), if_neg h]
    rw [List.filter_append]
    have h1 : following.filter (fun id => id != t) = following :=
      List.filter_eq_self.mpr fun a ha => by
        have hat : a ≠ t := fun heq => h (heq ▸ ha)
        simpa [bne_iff_ne] using hat
    have h2 : ([t].filter (fun id => id != t)) = ([] : List String) := by simp
    rw [h1, h2, List.append_nil]

/-! ### C4: the optimistic update toggles membership -/

/-- C4: the optimistic update makes the target a member of the following list
iff it was not one before, and the backend call carries the current uid, the
target id and the negation of the prior membership as the desired new state. -/
theorem handleFollowToggle_optimistic (uid : String) (following : List String) (t : String) :
    (t ∈ (handleFollowToggle uid following t).1 ↔ t ∉ following) ∧
    ((handleFollowToggle uid following t).2.newState = true ↔ t ∉ following) ∧
    (handleFollowToggle uid following t).2.uid = uid ∧
    (handleFollowToggle uid following t).2.targetUserId = t := by
  refine ⟨?_, ?_, rfl, rfl⟩
  · rw [handleFollowToggle_fst]
    by_cases h : t ∈ following
    · simp [h, List.mem_filter]
    · simp [h]
  · show (!(following.contains t)) = true ↔ t ∉ following
    by_cases h : t ∈ following
    · simp [List.elem_iff.mpr h, List.contains, h]
    · simp [contains_eq_false_of_not_mem _ _ h, h]

/-! ### C3: rollback after a failed backend call -/

/-- C3 counterexample: when the target was already followed but not last in the
list, the rollback does not restore the exact prior list: the target id is
re-appended at the end. -/
theorem handleFollowToggleOnError_not_exact :
    handleFollowToggleOnError "me" ["b", "a"] "b" ≠ ["b", "a"] := by decide

/-- C3 (amended): on backend failure the rollback restores a following list
with exactly the same members as before the press (equal as a set of user
ids); when the target was not previously followed, the prior list is restored
exactly, and when it was, the target id ends up at the end of the list. -/
theorem handleFollowToggleOnError_same_members
    (uid : String) (following : List String) (t : String) :
    (∀ x, x ∈ handleFollowToggleOnError uid following t ↔ x ∈ following) ∧
    (t ∉ following → handleFollowToggleOnError uid following t = following) := by
  constructor
  · intro x
    rw [handleFollowToggleOnError_eq]
    by_cases h : t ∈ following
    · rw [if_pos h]
      simp only [List.mem_append, List.mem_filter, List.mem_singleton, bne_iff_ne,
        ne_eq, decide_eq_true_eq]
      constructor
      · rintro (⟨hx, _⟩ | rfl)
        · exact hx
        · exact h
      · intro hx
        by_cases hxt : x = t
        · exact Or.inr hxt
        · exact Or.inl ⟨hx, hxt⟩
    · rw [if_neg h]
  · intro hnot
    rw [handleFollowToggleOnError_eq, if_neg hnot]

/-- Witness for the amended C3: for a target not previously followed, the
rollback restores the prior list exactly. -/
theorem handleFollowToggleOnError_same_members_witness :
    ("c" : String) ∉ (["x"] : List String) ∧
      handleFollowToggleOnError "me" ["x"] "c" = ["x"] :=
  ⟨by decide, (handleFollowToggleOnError_same_members "me" ["x"] "c").2 (by decide)⟩

/-! ### C5: the following list stays duplicate-free -/

/-- C5: if the prior following list has no duplicates, neither the list
produced by the optimistic update nor the one produced by the rollback has
duplicates. -/
theorem handleFollowToggle_nodup (uid : String) (following : List String) (t : String)
    (h : following.Nodup) :
    (handleFollowToggle uid following t).1.Nodup ∧
    (handleFollowToggleOnError uid following t).Nodup := by
  constructor
  · rw [handleFollowToggle_fst]
    by_cases hm : t ∈ following
    · rw [if_pos hm]
      exact h.filter _
    · rw [if_neg hm]
      simp [List.nodup_append, h, hm]
  · rw [handleFollowToggleOnError_eq]
    by_cases hm : t ∈ following
    · rw [if_pos hm]
      have hf : (following.filter (fun id => id != t)).Nodup := h.filter _
      have ht : t ∉ following.filter (fun id => id != t) := by
        simp [List.mem_filter]
      simp [List.nodup_append, hf, ht]
    · rw [if_neg hm]
      exact h

/-- Witness for C5: a duplicate-free list stays duplicate-free through the
optimistic update and the rollback. -/
theorem handleFollowToggle_nodup_witness :
    (["a"] : List String).Nodup ∧
      ((handleFollowToggle "me" ["a"] "b").1.Nodup ∧
        (handleFollowToggleOnError "me" ["a"] "b").Nodup) :=
  ⟨by decide, handleFollowToggle_nodup "me" ["a"] "b" (by decide)⟩

/-! ### C6: study-space records rendered as markers -/

/-- C6: every study space in the displayed list yields a marker whose
coordinate is `(location[0], location[1])`, whose title is the space's name
and whose description is its address. -/
theorem spaceMarkers_renders_each (studySpaces : List StudySpace) (space : StudySpace)
    (h : space ∈ studySpaces) :
    ∃ m ∈ spaceMarkers studySpaces,
      m.latitude = space.location.1 ∧ m.longitude = space.location.2 ∧
      m.title = space.name ∧ m.description = space.address :=
  ⟨renderSpaceMarker space, List.mem_map_of_mem _ h, rfl, rfl, rfl, rfl⟩

/-- Witness for C6: the sample study space is rendered with its own name,
address and coordinates. -/
theorem spaceMarkers_renders_each_witness :
    sampleSpace ∈ [sampleSpace] ∧
      ∃ m ∈ spaceMarkers [sampleSpace],
        m.latitude = sampleSpace.location.1 ∧ m.longitude = sampleSpace.location.2 ∧
        m.title = sampleSpace.name ∧ m.description = sampleSpace.address :=
  ⟨List.mem_singleton_self _,
    spaceMarkers_renders_each [sampleSpace] sampleSpace (List.mem_singleton_self _)⟩

/-! ### C9: bringSpaceToTop -/

lemma jsFindIndex_none_iff {α : Type} (p : α → Bool) (l : List α) :
    jsFindIndex p l = none ↔ ∀ x ∈ l, p x = false := by
  induction l with
  | nil => simp [jsFindIndex]
  | cons a l ih =>
    cases hpa : p a with
    | true => simp [jsFindIndex, hpa]
    | false => simp [jsFindIndex, hpa, Option.map_eq_none', ih]

lemma jsFindIndex_some_decomp {α : Type} (p : α → Bool) (l : List α) (i : ℕ)
    (h : jsFindIndex p l = some i) :
    ∃ pre x post, l = pre ++ x :: post ∧ pre.length = i ∧ p x = true ∧
      ∀ y ∈ pre, p y = false := by
  induction l generalizing i with
  | nil => simp [jsFindIndex] at h
  | cons a l ih =>
    cases hpa : p a with
    | true =>
      have h0 : (0 : ℕ) = i := by simpa [jsFindIndex, hpa] using h
      exact ⟨[], a, l, rfl, h0, hpa, by simp⟩
    | false =>
      rw [show jsFindIndex p (a :: l) = (jsFindIndex p l).map (· + 1) by
        simp [jsFindIndex, hpa]] at h
      obtain ⟨j, hj, hji⟩ := Option.map_eq_some'.mp h
      obtain ⟨pre, x, post, hl, hlen, hpx, hpre⟩ := ih j hj
      refine ⟨a :: pre, x, post, by simp [hl], by simp [hlen, hji], hpx, ?_⟩
      intro y hy
      rcases List.mem_cons.mp hy with rfl | hy2
      · exact hpa
      · exact hpre y hy2

lemma getElem?_append_cons_length {α : Type} (pre : List α) (x : α) (post : List α) :
    (pre ++ x :: post)[pre.length]? = some x := by
  induction pre with
  | nil => simp
  | cons a pre ih => simpa using ih

lemma eraseIdx_append_cons_length {α : Type} (pre : List α) (x : α) (post : List α) :
    (pre ++ x :: post).eraseIdx pre.length = pre ++ post := by
  induction pre with
  | nil => rfl
  | cons a pre ih => simpa using ih

/-- C9: `bringSpaceToTop` returns the list unchanged when no space has the
given id; otherwise it returns a permutation of the input consisting of the
first space with that id followed by all remaining spaces in their original
relative order. -/
theorem bringSpaceToTop_spec (spaces : List StudySpace) (sid : String) :
    ((∀ s ∈ spaces, s.id ≠ sid) → bringSpaceToTop spaces sid = spaces) ∧
    ((∃ s ∈ spaces, s.id = sid) →
      ∃ pre sel post, spaces = pre ++ sel :: post ∧ sel.id = sid ∧
        (∀ s2 ∈ pre, s2.id ≠ sid) ∧
        bringSpaceToTop spaces sid = sel :: (pre ++ post) ∧
        (bringSpaceToTop spaces sid).Perm spaces) := by
  constructor
  · intro hno
    have hnone : jsFindIndex (fun space => space.id == sid) spaces = none :=
      (jsFindIndex_none_iff _ _).mpr fun x hx => by
        simpa [beq_eq_false_iff_ne] using hno x hx
    simp [bringSpaceToTop, hnone]
  · rintro ⟨s, hs, hid⟩
    cases hfind : jsFindIndex (fun space => space.id == sid) spaces with
    | none =>
      have hfalse := (jsFindIndex_none_iff _ _).mp hfind s hs
      simp [hid] at hfalse
    | some i =>
      obtain ⟨pre, x, post, hl, hlen, hpx, hpre⟩ := jsFindIndex_some_decomp _ _ _ hfind
      have hx : x.id = sid := by simpa using hpx
      have hget : spaces[i]? = some x := by
        rw [hl, ← hlen]
        exact getElem?_append_cons_length pre x post
      have herase : spaces.eraseIdx i = pre ++ post := by
        rw [hl, ← hlen]
        exact eraseIdx_append_cons_length pre x post
      have hbring : bringSpaceToTop spaces sid = x :: (pre ++ post) := by
        simp [bringSpaceToTop, hfind, hget, herase]
      refine ⟨pre, x, post, hl, hx, ?_, hbring, ?_⟩
      · intro s2 hs2
        simpa [beq_eq_false_iff_ne] using hpre s2 hs2
      · rw [hbring, hl]
        exact List.perm_middle.symm

/-- Witness for C9: with no matching id, the list is returned unchanged. -/
theorem bringSpaceToTop_spec_witness :
    (∀ s ∈ ([sampleSpace] : List StudySpace), s.id ≠ "zz") ∧
      bringSpaceToTop [sampleSpace] "zz" = [sampleSpace] := by
  have h : ∀ s ∈ ([sampleSpace] : List StudySpace), s.id ≠ "zz" := by
    intro s hs
    rw [List.mem_singleton.mp hs]
    decide
  exact ⟨h, (bringSpaceToTop_spec [sampleSpace] "zz").1 h⟩

end StudyMap
